import Mathlib

/-!
Verification of the dualsense-ts HID report decoding core
(src/hid/hid_provider.ts) against its natural-language specification.

The repository code is shallowly embedded below. Buffers are byte lists
(Fin 256 entries, since a HID report buffer holds octets); JavaScript
number arithmetic on byte values is embedded as Nat / Int / Rat arithmetic
with 32-bit operator semantics made explicit where the source relies on
them (the 12-bit touch-coordinate shift trick).
-/

namespace Dualsense

/-- Error raised by the byte accessor when a read goes past the end of the
buffer, carrying the offending offset. -/
inductive DecodeError where
  | outOfRange : Nat → DecodeError
deriving DecidableEq

/-- Modelled from the spec: the Byte Accessor component (src/hid/byte_array.ts,
which is imported by hid_provider.ts but absent from the provided sources).
Per spec section 4.1 it provides bounds-checked 8-bit and little-endian
16-bit unsigned reads over a raw report buffer, failing with an OutOfRange
condition when the offset (or offset+1 for 16-bit reads) exceeds the buffer
length. -/
structure ByteArray where
  data : List (Fin 256)
deriving DecidableEq

/-- Number of bytes in the buffer. -/
def ByteArray.length (b : ByteArray) : Nat := b.data.length

/-- Total helper: the byte stored at an offset (0 past the end); used only to
express the value returned by a successful bounds-checked read. -/
def ByteArray.byteAt (b : ByteArray) (off : Nat) : Nat := (b.data.getD off 0).val

/-- Modelled from the spec: bounds-checked unsigned 8-bit read
(spec section 4.1). -/
def ByteArray.readUint8 (b : ByteArray) (off : Nat) : Except DecodeError Nat :=
  if off < b.data.length then .ok (b.byteAt off) else .error (.outOfRange off)

/-- Modelled from the spec: bounds-checked little-endian unsigned 16-bit read
(spec section 4.1); fails if offset or offset+1 is out of range. -/
def ByteArray.readUint16LE (b : ByteArray) (off : Nat) : Except DecodeError Nat := do
  let lo ← b.readUint8 off
  let hi ← b.readUint8 (off + 1)
  return lo + 256 * hi

/-- Total helper: the little-endian 16-bit value at an offset. -/
def ByteArray.wordAt (b : ByteArray) (off : Nat) : Nat :=
  b.byteAt off + 256 * b.byteAt (off + 1)

theorem ok_bind {α β ε : Type} (a : α) (f : α → Except ε β) :
    (Except.ok a : Except ε α) >>= f = f a := rfl

theorem error_bind {α β ε : Type} (e : ε) (f : α → Except ε β) :
    (Except.error e : Except ε α) >>= f = Except.error e := rfl

theorem byteAt_lt (b : ByteArray) (off : Nat) : b.byteAt off < 256 :=
  (b.data.getD off 0).isLt

theorem wordAt_lt (b : ByteArray) (off : Nat) : b.wordAt off < 65536 := by
  have h0 := byteAt_lt b off
  have h1 := byteAt_lt b (off + 1)
  unfold ByteArray.wordAt
  omega

theorem readUint8_ok (b : ByteArray) (off : Nat) (h : off < b.data.length) :
    b.readUint8 off = .ok (b.byteAt off) := by
  unfold ByteArray.readUint8
  rw [if_pos h]

theorem readUint8_err (b : ByteArray) (off : Nat) (h : b.data.length ≤ off) :
    b.readUint8 off = .error (.outOfRange off) := by
  unfold ByteArray.readUint8
  rw [if_neg (by omega)]

theorem readUint16LE_ok (b : ByteArray) (off : Nat) (h : off + 1 < b.data.length) :
    b.readUint16LE off = .ok (b.wordAt off) := by
  unfold ByteArray.readUint16LE
  rw [readUint8_ok b off (by omega), ok_bind, readUint8_ok b (off + 1) h, ok_bind]
  rfl

/-! ### Value mappers (hid_provider.ts lines 8-25) -/

/-- Maps a HID input of 0...n to -1...1 (mapAxis in hid_provider.ts). -/
def mapAxis (value : ℚ) (max : ℚ := 255) : ℚ :=
  (2 / max) * (Max.max 0 (Min.min max value)) - 1

/-- Maps a HID input of 0...255 to 0...1 (mapTrigger in hid_provider.ts). -/
def mapTrigger (value : ℚ) : ℚ :=
  (1 / 255) * (Max.max 0 (Min.min 255 value))

/-- Maps a HID input for either gyroscope or acceleration
(mapGyroAccel in hid_provider.ts). Inputs are the two bytes of a
little-endian 16-bit field. -/
def mapGyroAccel (v0 v1 : Nat) : Int :=
  let v : Nat := (v1 <<< 8) ||| v0
  if v > 0x7fff then (v : Int) - 0x10000 else (v : Int)

/-! ### 32-bit JavaScript operator semantics for the touch coordinate trick -/

/-- Interpretation of a nonnegative integer as a signed 32-bit value
(JavaScript ToInt32). -/
def asInt32 (n : Nat) : Int :=
  if n % 4294967296 < 2147483648 then ((n % 4294967296 : Nat) : Int)
  else ((n % 4294967296 : Nat) : Int) - 4294967296

/-- JavaScript `<<` on a nonnegative left operand: 32-bit left shift with
wraparound, signed result. -/
def jsShl (a k : Nat) : Int := asInt32 (a <<< (k % 32))

/-- JavaScript `>>`: arithmetic (sign-propagating) right shift, i.e. floor
division by a power of two. -/
def jsSar (a : Int) (k : Nat) : Int := a.fdiv (2 ^ (k % 32))

/-- The touch X-coordinate reconstruction `(w << 20) >> 20` applied by the
decode routines to a 16-bit packed field: sign-extends the low 12 bits. -/
def touchXRaw (w : Nat) : Int := jsSar (jsShl w 20) 20

/-- The touch Y-coordinate reconstruction `w >> 4` applied by the decode
routines to a 16-bit packed field: the high 12 bits. -/
def touchYRaw (w : Nat) : Int := jsSar (asInt32 w) 4

/-! ### Canonical snapshot (DualsenseHIDState interface, lines 28-70) -/

/-- Describes an observation of the input state of a Dualsense controller
(the DualsenseHIDState interface; one field per InputId key). -/
structure DualsenseHIDState where
  LeftAnalogX : ℚ
  LeftAnalogY : ℚ
  RightAnalogX : ℚ
  RightAnalogY : ℚ
  LeftTrigger : ℚ
  RightTrigger : ℚ
  Triangle : Bool
  Circle : Bool
  Cross : Bool
  Square : Bool
  Dpad : Nat
  Up : Bool
  Down : Bool
  Left : Bool
  Right : Bool
  RightAnalogButton : Bool
  LeftAnalogButton : Bool
  Options : Bool
  Create : Bool
  RightTriggerButton : Bool
  LeftTriggerButton : Bool
  RightBumper : Bool
  LeftBumper : Bool
  Playstation : Bool
  TouchButton : Bool
  Mute : Bool
  Status : Bool
  TouchX0 : ℚ
  TouchY0 : ℚ
  TouchContact0 : Bool
  TouchId0 : Nat
  TouchX1 : ℚ
  TouchY1 : ℚ
  TouchContact1 : Bool
  TouchId1 : Nat
  GyroX : Int
  GyroY : Int
  GyroZ : Int
  AccelX : Int
  AccelY : Int
  AccelZ : Int

/-! ### HIDProvider constants and connection state (lines 73-164) -/

/-- HID vendorId for a Dualsense controller. -/
def vendorId : Nat := 1356

/-- HID productId for a Dualsense controller. -/
def productId : Nat := 3302

/-- Expected USB input report 0x01 size, not including the report ID byte. -/
def DUAL_SENSE_USB_INPUT_REPORT_0x01_SIZE : Nat := 63

/-- Expected Bluetooth input report 0x01 size, not including the report ID
byte. -/
def DUAL_SENSE_BT_INPUT_REPORT_0x01_SIZE : Nat := 9

/-- Expected Bluetooth input report 0x31 size, not including the report ID
byte. -/
def DUAL_SENSE_BT_INPUT_REPORT_0x31_SIZE : Nat := 77

/-- The mutable connection-related fields of HIDProvider: the device handle
and latest buffer (abstracted to presence flags), the wireless flag
(undefined, true or false) and the sticky unknownDevice flag. -/
structure ProviderState where
  device : Option Unit
  wireless : Option Bool
  buffer : Option Unit
  unknownDevice : Bool
  oldFirmware : Bool
deriving DecidableEq

/-- A fresh provider: nothing connected, flags clear. -/
def initialState : ProviderState :=
  { device := none
    wireless := none
    buffer := none
    unknownDevice := false
    oldFirmware := false }

/-- Autodetects the wireless parameter based on the length of the buffer
(autodetectConnectionType in hid_provider.ts). The returned Bool records
whether the onError callback was invoked with the
cannot-autodetect (FormatUnrecognized) error during this call. -/
def autodetectConnectionType (s : ProviderState) (buffer : ByteArray) :
    ProviderState × Bool :=
  if buffer.length = DUAL_SENSE_USB_INPUT_REPORT_0x01_SIZE + 1 then
    ({ s with wireless := some false }, false)
  else if buffer.length = DUAL_SENSE_BT_INPUT_REPORT_0x31_SIZE + 1 then
    ({ s with wireless := some true }, false)
  else
    ({ s with wireless := none, unknownDevice := true }, !s.unknownDevice)

/-- Reset the HIDProvider state when the device is disconnected
(reset in hid_provider.ts). -/
def reset (s : ProviderState) : ProviderState :=
  { s with
    device := none
    wireless := none
    buffer := none
    unknownDevice := false }

/-- One autodetect step over an accumulator that also counts how many times
the error callback fired. -/
def autodetectStep (acc : ProviderState × Nat) (buffer : ByteArray) :
    ProviderState × Nat :=
  let r := autodetectConnectionType acc.1 buffer
  (r.1, acc.2 + (if r.2 then 1 else 0))

/-- Feeds a sequence of buffers through autodetectConnectionType, returning
the final state and the total number of error-callback invocations. -/
def runAutodetect (s : ProviderState) (buffers : List ByteArray) :
    ProviderState × Nat :=
  buffers.foldl autodetectStep (s, 0)

/-! ### Decode routines (hid_provider.ts lines 170-372); reads occur in the
source's evaluation order, so the first out-of-range offset is the one
reported -/

/-- Process a bluetooth input report of type 01
(processBluetoothInputReport01 in hid_provider.ts). -/
def processBluetoothInputReport01 (buffer : ByteArray) :
    Except DecodeError DualsenseHIDState := do
  let buttonsAndDpad ← buffer.readUint8 7
  let buttons := buttonsAndDpad >>> 4
  let dpad := buttonsAndDpad &&& 0b1111
  let miscButtons ← buffer.readUint8 8
  let lastButtons ← buffer.readUint8 9
  let leftAnalogX ← buffer.readUint8 1
  let leftAnalogY ← buffer.readUint8 2
  let rightAnalogX ← buffer.readUint8 3
  let rightAnalogY ← buffer.readUint8 4
  let leftTriggerByte ← buffer.readUint8 8
  let rightTriggerByte ← buffer.readUint8 9
  let gyroX0 ← buffer.readUint8 16
  let gyroX1 ← buffer.readUint8 17
  let gyroY0 ← buffer.readUint8 18
  let gyroY1 ← buffer.readUint8 19
  let gyroZ0 ← buffer.readUint8 20
  let gyroZ1 ← buffer.readUint8 21
  let accelX0 ← buffer.readUint8 22
  let accelX1 ← buffer.readUint8 23
  let accelY0 ← buffer.readUint8 24
  let accelY1 ← buffer.readUint8 25
  let accelZ0 ← buffer.readUint8 26
  let accelZ1 ← buffer.readUint8 27
  let touchHeader0 ← buffer.readUint8 33
  let touchWordX0 ← buffer.readUint16LE 34
  let touchWordY0 ← buffer.readUint16LE 35
  let touchHeader1 ← buffer.readUint8 37
  let touchWordX1 ← buffer.readUint16LE 38
  let touchWordY1 ← buffer.readUint16LE 39
  let statusByte ← buffer.readUint8 54
  return {
    LeftAnalogX := mapAxis leftAnalogX
    LeftAnalogY := -mapAxis leftAnalogY
    RightAnalogX := mapAxis rightAnalogX
    RightAnalogY := -mapAxis rightAnalogY
    LeftTrigger := mapTrigger leftTriggerByte
    RightTrigger := mapTrigger rightTriggerByte
    Triangle := decide (0 < buttons &&& 8)
    Circle := decide (0 < buttons &&& 4)
    Cross := decide (0 < buttons &&& 2)
    Square := decide (0 < buttons &&& 1)
    Dpad := dpad
    Up := decide (dpad < 2 ∨ dpad = 7)
    Down := decide (2 < dpad ∧ dpad < 6)
    Left := decide (4 < dpad ∧ dpad < 8)
    Right := decide (0 < dpad ∧ dpad < 4)
    LeftTriggerButton := decide (0 < miscButtons &&& 4)
    RightTriggerButton := decide (0 < miscButtons &&& 8)
    LeftBumper := decide (0 < miscButtons &&& 1)
    RightBumper := decide (0 < miscButtons &&& 2)
    Create := decide (0 < miscButtons &&& 16)
    Options := decide (0 < miscButtons &&& 32)
    LeftAnalogButton := decide (0 < miscButtons &&& 64)
    RightAnalogButton := decide (0 < miscButtons &&& 128)
    Playstation := decide (0 < lastButtons &&& 1)
    TouchButton := decide (0 < lastButtons &&& 2)
    Mute := decide (0 < lastButtons &&& 4)
    GyroX := mapGyroAccel gyroX0 gyroX1
    GyroY := mapGyroAccel gyroY0 gyroY1
    GyroZ := mapGyroAccel gyroZ0 gyroZ1
    AccelX := mapGyroAccel accelX0 accelX1
    AccelY := mapGyroAccel accelY0 accelY1
    AccelZ := mapGyroAccel accelZ0 accelZ1
    TouchId0 := touchHeader0 &&& 0x7f
    TouchContact0 := decide (touchHeader0 &&& 0x80 = 0)
    TouchX0 := mapAxis (touchXRaw touchWordX0 : ℚ) 1920
    TouchY0 := mapAxis (touchYRaw touchWordY0 : ℚ) 1080
    TouchId1 := touchHeader1 &&& 0x7f
    TouchContact1 := decide (touchHeader1 &&& 0x80 = 0)
    TouchX1 := mapAxis (touchXRaw touchWordX1 : ℚ) 1920
    TouchY1 := mapAxis (touchYRaw touchWordY1 : ℚ) 1080
    Status := decide (0 < statusByte &&& 4)
  }

/-- The snapshot produced by processBluetoothInputReport01 when every read is
in bounds, written with total reads. -/
def btView (buffer : ByteArray) : DualsenseHIDState :=
  { LeftAnalogX := mapAxis (buffer.byteAt 1)
    LeftAnalogY := -mapAxis (buffer.byteAt 2)
    RightAnalogX := mapAxis (buffer.byteAt 3)
    RightAnalogY := -mapAxis (buffer.byteAt 4)
    LeftTrigger := mapTrigger (buffer.byteAt 8)
    RightTrigger := mapTrigger (buffer.byteAt 9)
    Triangle := decide (0 < (buffer.byteAt 7 >>> 4) &&& 8)
    Circle := decide (0 < (buffer.byteAt 7 >>> 4) &&& 4)
    Cross := decide (0 < (buffer.byteAt 7 >>> 4) &&& 2)
    Square := decide (0 < (buffer.byteAt 7 >>> 4) &&& 1)
    Dpad := buffer.byteAt 7 &&& 0b1111
    Up := decide (buffer.byteAt 7 &&& 0b1111 < 2 ∨ buffer.byteAt 7 &&& 0b1111 = 7)
    Down := decide (2 < buffer.byteAt 7 &&& 0b1111 ∧ buffer.byteAt 7 &&& 0b1111 < 6)
    Left := decide (4 < buffer.byteAt 7 &&& 0b1111 ∧ buffer.byteAt 7 &&& 0b1111 < 8)
    Right := decide (0 < buffer.byteAt 7 &&& 0b1111 ∧ buffer.byteAt 7 &&& 0b1111 < 4)
    LeftTriggerButton := decide (0 < buffer.byteAt 8 &&& 4)
    RightTriggerButton := decide (0 < buffer.byteAt 8 &&& 8)
    LeftBumper := decide (0 < buffer.byteAt 8 &&& 1)
    RightBumper := decide (0 < buffer.byteAt 8 &&& 2)
    Create := decide (0 < buffer.byteAt 8 &&& 16)
    Options := decide (0 < buffer.byteAt 8 &&& 32)
    LeftAnalogButton := decide (0 < buffer.byteAt 8 &&& 64)
    RightAnalogButton := decide (0 < buffer.byteAt 8 &&& 128)
    Playstation := decide (0 < buffer.byteAt 9 &&& 1)
    TouchButton := decide (0 < buffer.byteAt 9 &&& 2)
    Mute := decide (0 < buffer.byteAt 9 &&& 4)
    GyroX := mapGyroAccel (buffer.byteAt 16) (buffer.byteAt 17)
    GyroY := mapGyroAccel (buffer.byteAt 18) (buffer.byteAt 19)
    GyroZ := mapGyroAccel (buffer.byteAt 20) (buffer.byteAt 21)
    AccelX := mapGyroAccel (buffer.byteAt 22) (buffer.byteAt 23)
    AccelY := mapGyroAccel (buffer.byteAt 24) (buffer.byteAt 25)
    AccelZ := mapGyroAccel (buffer.byteAt 26) (buffer.byteAt 27)
    TouchId0 := buffer.byteAt 33 &&& 0x7f
    TouchContact0 := decide (buffer.byteAt 33 &&& 0x80 = 0)
    TouchX0 := mapAxis (touchXRaw (buffer.wordAt 34) : ℚ) 1920
    TouchY0 := mapAxis (touchYRaw (buffer.wordAt 35) : ℚ) 1080
    TouchId1 := buffer.byteAt 37 &&& 0x7f
    TouchContact1 := decide (buffer.byteAt 37 &&& 0x80 = 0)
    TouchX1 := mapAxis (touchXRaw (buffer.wordAt 38) : ℚ) 1920
    TouchY1 := mapAxis (touchYRaw (buffer.wordAt 39) : ℚ) 1080
    Status := decide (0 < buffer.byteAt 54 &&& 4) }

theorem processBluetoothInputReport01_ok (buffer : ByteArray)
    (h : 54 < buffer.data.length) :
    processBluetoothInputReport01 buffer = .ok (btView buffer) := by
  simp only [processBluetoothInputReport01, btView,
    readUint8_ok buffer 7 (by omega),
    readUint8_ok buffer 8 (by omega),
    readUint8_ok buffer 9 (by omega),
    readUint8_ok buffer 1 (by omega),
    readUint8_ok buffer 2 (by omega),
    readUint8_ok buffer 3 (by omega),
    readUint8_ok buffer 4 (by omega),
    readUint8_ok buffer 16 (by omega),
    readUint8_ok buffer 17 (by omega),
    readUint8_ok buffer 18 (by omega),
    readUint8_ok buffer 19 (by omega),
    readUint8_ok buffer 20 (by omega),
    readUint8_ok buffer 21 (by omega),
    readUint8_ok buffer 22 (by omega),
    readUint8_ok buffer 23 (by omega),
    readUint8_ok buffer 24 (by omega),
    readUint8_ok buffer 25 (by omega),
    readUint8_ok buffer 26 (by omega),
    readUint8_ok buffer 27 (by omega),
    readUint8_ok buffer 33 (by omega),
    readUint16LE_ok buffer 34 (by omega),
    readUint16LE_ok buffer 35 (by omega),
    readUint8_ok buffer 37 (by omega),
    readUint16LE_ok buffer 38 (by omega),
    readUint16LE_ok buffer 39 (by omega),
    readUint8_ok buffer 54 (by omega),
    ok_bind]
  rfl

/-- Process a USB input report of type 01
(processUsbInputReport01 in hid_provider.ts). -/
def processUsbInputReport01 (buffer : ByteArray) :
    Except DecodeError DualsenseHIDState := do
  let buttonsAndDpad ← buffer.readUint8 8
  let buttons := buttonsAndDpad >>> 4
  let dpad := buttonsAndDpad &&& 0b1111
  let miscButtons ← buffer.readUint8 9
  let lastButtons ← buffer.readUint8 10
  let leftAnalogX ← buffer.readUint8 1
  let leftAnalogY ← buffer.readUint8 2
  let rightAnalogX ← buffer.readUint8 3
  let rightAnalogY ← buffer.readUint8 4
  let leftTriggerByte ← buffer.readUint8 5
  let rightTriggerByte ← buffer.readUint8 6
  let gyroX0 ← buffer.readUint8 16
  let gyroX1 ← buffer.readUint8 17
  let gyroY0 ← buffer.readUint8 18
  let gyroY1 ← buffer.readUint8 19
  let gyroZ0 ← buffer.readUint8 20
  let gyroZ1 ← buffer.readUint8 21
  let accelX0 ← buffer.readUint8 22
  let accelX1 ← buffer.readUint8 23
  let accelY0 ← buffer.readUint8 24
  let accelY1 ← buffer.readUint8 25
  let accelZ0 ← buffer.readUint8 26
  let accelZ1 ← buffer.readUint8 27
  let touchHeader0 ← buffer.readUint8 33
  let touchWordX0 ← buffer.readUint16LE 34
  let touchWordY0 ← buffer.readUint16LE 35
  let touchHeader1 ← buffer.readUint8 37
  let touchWordX1 ← buffer.readUint16LE 38
  let touchWordY1 ← buffer.readUint16LE 39
  let statusByte ← buffer.readUint8 54
  return {
    LeftAnalogX := mapAxis leftAnalogX
    LeftAnalogY := -mapAxis leftAnalogY
    RightAnalogX := mapAxis rightAnalogX
    RightAnalogY := -mapAxis rightAnalogY
    LeftTrigger := mapTrigger leftTriggerByte
    RightTrigger := mapTrigger rightTriggerByte
    Triangle := decide (0 < buttons &&& 8)
    Circle := decide (0 < buttons &&& 4)
    Cross := decide (0 < buttons &&& 2)
    Square := decide (0 < buttons &&& 1)
    Dpad := dpad
    Up := decide (dpad < 2 ∨ dpad = 7)
    Down := decide (2 < dpad ∧ dpad < 6)
    Left := decide (4 < dpad ∧ dpad < 8)
    Right := decide (0 < dpad ∧ dpad < 4)
    LeftTriggerButton := decide (0 < miscButtons &&& 4)
    RightTriggerButton := decide (0 < miscButtons &&& 8)
    LeftBumper := decide (0 < miscButtons &&& 1)
    RightBumper := decide (0 < miscButtons &&& 2)
    Create := decide (0 < miscButtons &&& 16)
    Options := decide (0 < miscButtons &&& 32)
    LeftAnalogButton := decide (0 < miscButtons &&& 64)
    RightAnalogButton := decide (0 < miscButtons &&& 128)
    Playstation := decide (0 < lastButtons &&& 1)
    TouchButton := decide (0 < lastButtons &&& 2)
    Mute := decide (0 < lastButtons &&& 4)
    GyroX := mapGyroAccel gyroX0 gyroX1
    GyroY := mapGyroAccel gyroY0 gyroY1
    GyroZ := mapGyroAccel gyroZ0 gyroZ1
    AccelX := mapGyroAccel accelX0 accelX1
    AccelY := mapGyroAccel accelY0 accelY1
    AccelZ := mapGyroAccel accelZ0 accelZ1
    TouchId0 := touchHeader0 &&& 0x7f
    TouchContact0 := decide (touchHeader0 &&& 0x80 = 0)
    TouchX0 := mapAxis (touchXRaw touchWordX0 : ℚ) 1920
    TouchY0 := mapAxis (touchYRaw touchWordY0 : ℚ) 1080
    TouchId1 := touchHeader1 &&& 0x7f
    TouchContact1 := decide (touchHeader1 &&& 0x80 = 0)
    TouchX1 := mapAxis (touchXRaw touchWordX1 : ℚ) 1920
    TouchY1 := mapAxis (touchYRaw touchWordY1 : ℚ) 1080
    Status := decide (0 < statusByte &&& 4)
  }

/-- The snapshot produced by processUsbInputReport01 when every read is in
bounds, written with total reads. -/
def usbView (buffer : ByteArray) : DualsenseHIDState :=
  { LeftAnalogX := mapAxis (buffer.byteAt 1)
    LeftAnalogY := -mapAxis (buffer.byteAt 2)
    RightAnalogX := mapAxis (buffer.byteAt 3)
    RightAnalogY := -mapAxis (buffer.byteAt 4)
    LeftTrigger := mapTrigger (buffer.byteAt 5)
    RightTrigger := mapTrigger (buffer.byteAt 6)
    Triangle := decide (0 < (buffer.byteAt 8 >>> 4) &&& 8)
    Circle := decide (0 < (buffer.byteAt 8 >>> 4) &&& 4)
    Cross := decide (0 < (buffer.byteAt 8 >>> 4) &&& 2)
    Square := decide (0 < (buffer.byteAt 8 >>> 4) &&& 1)
    Dpad := buffer.byteAt 8 &&& 0b1111
    Up := decide (buffer.byteAt 8 &&& 0b1111 < 2 ∨ buffer.byteAt 8 &&& 0b1111 = 7)
    Down := decide (2 < buffer.byteAt 8 &&& 0b1111 ∧ buffer.byteAt 8 &&& 0b1111 < 6)
    Left := decide (4 < buffer.byteAt 8 &&& 0b1111 ∧ buffer.byteAt 8 &&& 0b1111 < 8)
    Right := decide (0 < buffer.byteAt 8 &&& 0b1111 ∧ buffer.byteAt 8 &&& 0b1111 < 4)
    LeftTriggerButton := decide (0 < buffer.byteAt 9 &&& 4)
    RightTriggerButton := decide (0 < buffer.byteAt 9 &&& 8)
    LeftBumper := decide (0 < buffer.byteAt 9 &&& 1)
    RightBumper := decide (0 < buffer.byteAt 9 &&& 2)
    Create := decide (0 < buffer.byteAt 9 &&& 16)
    Options := decide (0 < buffer.byteAt 9 &&& 32)
    LeftAnalogButton := decide (0 < buffer.byteAt 9 &&& 64)
    RightAnalogButton := decide (0 < buffer.byteAt 9 &&& 128)
    Playstation := decide (0 < buffer.byteAt 10 &&& 1)
    TouchButton := decide (0 < buffer.byteAt 10 &&& 2)
    Mute := decide (0 < buffer.byteAt 10 &&& 4)
    GyroX := mapGyroAccel (buffer.byteAt 16) (buffer.byteAt 17)
    GyroY := mapGyroAccel (buffer.byteAt 18) (buffer.byteAt 19)
    GyroZ := mapGyroAccel (buffer.byteAt 20) (buffer.byteAt 21)
    AccelX := mapGyroAccel (buffer.byteAt 22) (buffer.byteAt 23)
    AccelY := mapGyroAccel (buffer.byteAt 24) (buffer.byteAt 25)
    AccelZ := mapGyroAccel (buffer.byteAt 26) (buffer.byteAt 27)
    TouchId0 := buffer.byteAt 33 &&& 0x7f
    TouchContact0 := decide (buffer.byteAt 33 &&& 0x80 = 0)
    TouchX0 := mapAxis (touchXRaw (buffer.wordAt 34) : ℚ) 1920
    TouchY0 := mapAxis (touchYRaw (buffer.wordAt 35) : ℚ) 1080
    TouchId1 := buffer.byteAt 37 &&& 0x7f
    TouchContact1 := decide (buffer.byteAt 37 &&& 0x80 = 0)
    TouchX1 := mapAxis (touchXRaw (buffer.wordAt 38) : ℚ) 1920
    TouchY1 := mapAxis (touchYRaw (buffer.wordAt 39) : ℚ) 1080
    Status := decide (0 < buffer.byteAt 54 &&& 4) }

theorem processUsbInputReport01_ok (buffer : ByteArray)
    (h : 54 < buffer.data.length) :
    processUsbInputReport01 buffer = .ok (usbView buffer) := by
  simp only [processUsbInputReport01, usbView,
    readUint8_ok buffer 8 (by omega),
    readUint8_ok buffer 9 (by omega),
    readUint8_ok buffer 10 (by omega),
    readUint8_ok buffer 1 (by omega),
    readUint8_ok buffer 2 (by omega),
    readUint8_ok buffer 3 (by omega),
    readUint8_ok buffer 4 (by omega),
    readUint8_ok buffer 5 (by omega),
    readUint8_ok buffer 6 (by omega),
    readUint8_ok buffer 16 (by omega),
    readUint8_ok buffer 17 (by omega),
    readUint8_ok buffer 18 (by omega),
    readUint8_ok buffer 19 (by omega),
    readUint8_ok buffer 20 (by omega),
    readUint8_ok buffer 21 (by omega),
    readUint8_ok buffer 22 (by omega),
    readUint8_ok buffer 23 (by omega),
    readUint8_ok buffer 24 (by omega),
    readUint8_ok buffer 25 (by omega),
    readUint8_ok buffer 26 (by omega),
    readUint8_ok buffer 27 (by omega),
    readUint8_ok buffer 33 (by omega),
    readUint16LE_ok buffer 34 (by omega),
    readUint16LE_ok buffer 35 (by omega),
    readUint8_ok buffer 37 (by omega),
    readUint16LE_ok buffer 38 (by omega),
    readUint16LE_ok buffer 39 (by omega),
    readUint8_ok buffer 54 (by omega),
    ok_bind]
  rfl

/-- Process reports generated by an older Dualsense firmware
(processOldInputReport in hid_provider.ts). The wireless argument is the
truthiness of this.wireless (an undefined wireless flag behaves as false);
all byte offsets shift by one on a wired connection. Motion fields are read
as raw little-endian 16-bit values with no sign reconstruction. -/
def processOldInputReport (wireless : Bool) (buffer : ByteArray) :
    Except DecodeError DualsenseHIDState := do
  let o : Nat := cond wireless 0 1
  let buttonsAndDpad ← buffer.readUint8 (9 - o)
  let buttons := buttonsAndDpad >>> 4
  let dpad := buttonsAndDpad &&& 0b1111
  let miscButtons ← buffer.readUint8 (10 - o)
  let lastButtons ← buffer.readUint8 (11 - o)
  let leftAnalogX ← buffer.readUint8 (2 - o)
  let leftAnalogY ← buffer.readUint8 (3 - o)
  let rightAnalogX ← buffer.readUint8 (4 - o)
  let rightAnalogY ← buffer.readUint8 (5 - o)
  let leftTriggerByte ← buffer.readUint8 (6 - o)
  let rightTriggerByte ← buffer.readUint8 (7 - o)
  let gyroXWord ← buffer.readUint16LE (17 - o)
  let gyroYWord ← buffer.readUint16LE (19 - o)
  let gyroZWord ← buffer.readUint16LE (21 - o)
  let accelXWord ← buffer.readUint16LE (23 - o)
  let accelYWord ← buffer.readUint16LE (25 - o)
  let accelZWord ← buffer.readUint16LE (27 - o)
  let touchHeader0 ← buffer.readUint8 (34 - o)
  let touchWordX0 ← buffer.readUint16LE (35 - o)
  let touchWordY0 ← buffer.readUint16LE (36 - o)
  let touchHeader1 ← buffer.readUint8 (38 - o)
  let touchWordX1 ← buffer.readUint16LE (39 - o)
  let touchWordY1 ← buffer.readUint16LE (40 - o)
  let statusByte ← buffer.readUint8 (55 - o)
  return {
    LeftAnalogX := mapAxis leftAnalogX
    LeftAnalogY := -mapAxis leftAnalogY
    RightAnalogX := mapAxis rightAnalogX
    RightAnalogY := -mapAxis rightAnalogY
    LeftTrigger := mapTrigger leftTriggerByte
    RightTrigger := mapTrigger rightTriggerByte
    Triangle := decide (0 < buttons &&& 8)
    Circle := decide (0 < buttons &&& 4)
    Cross := decide (0 < buttons &&& 2)
    Square := decide (0 < buttons &&& 1)
    Dpad := dpad
    Up := decide (dpad < 2 ∨ dpad = 7)
    Down := decide (2 < dpad ∧ dpad < 6)
    Left := decide (4 < dpad ∧ dpad < 8)
    Right := decide (0 < dpad ∧ dpad < 4)
    LeftTriggerButton := decide (0 < miscButtons &&& 4)
    RightTriggerButton := decide (0 < miscButtons &&& 8)
    LeftBumper := decide (0 < miscButtons &&& 1)
    RightBumper := decide (0 < miscButtons &&& 2)
    Create := decide (0 < miscButtons &&& 16)
    Options := decide (0 < miscButtons &&& 32)
    LeftAnalogButton := decide (0 < miscButtons &&& 64)
    RightAnalogButton := decide (0 < miscButtons &&& 128)
    Playstation := decide (0 < lastButtons &&& 1)
    TouchButton := decide (0 < lastButtons &&& 2)
    Mute := decide (0 < lastButtons &&& 4)
    GyroX := (gyroXWord : Int)
    GyroY := (gyroYWord : Int)
    GyroZ := (gyroZWord : Int)
    AccelX := (accelXWord : Int)
    AccelY := (accelYWord : Int)
    AccelZ := (accelZWord : Int)
    TouchId0 := touchHeader0 &&& 0x7f
    TouchContact0 := decide (touchHeader0 &&& 0x80 = 0)
    TouchX0 := mapAxis (touchXRaw touchWordX0 : ℚ) 1920
    TouchY0 := mapAxis (touchYRaw touchWordY0 : ℚ) 1080
    TouchId1 := touchHeader1 &&& 0x7f
    TouchContact1 := decide (touchHeader1 &&& 0x80 = 0)
    TouchX1 := mapAxis (touchXRaw touchWordX1 : ℚ) 1920
    TouchY1 := mapAxis (touchYRaw touchWordY1 : ℚ) 1080
    Status := decide (0 < statusByte &&& 4)
  }

/-- The snapshot produced by processOldInputReport when every read is in
bounds, written with total reads. -/
def oldView (wireless : Bool) (buffer : ByteArray) : DualsenseHIDState :=
  { LeftAnalogX := mapAxis (buffer.byteAt (2 - cond wireless 0 1))
    LeftAnalogY := -mapAxis (buffer.byteAt (3 - cond wireless 0 1))
    RightAnalogX := mapAxis (buffer.byteAt (4 - cond wireless 0 1))
    RightAnalogY := -mapAxis (buffer.byteAt (5 - cond wireless 0 1))
    LeftTrigger := mapTrigger (buffer.byteAt (6 - cond wireless 0 1))
    RightTrigger := mapTrigger (buffer.byteAt (7 - cond wireless 0 1))
    Triangle := decide (0 < (buffer.byteAt (9 - cond wireless 0 1) >>> 4) &&& 8)
    Circle := decide (0 < (buffer.byteAt (9 - cond wireless 0 1) >>> 4) &&& 4)
    Cross := decide (0 < (buffer.byteAt (9 - cond wireless 0 1) >>> 4) &&& 2)
    Square := decide (0 < (buffer.byteAt (9 - cond wireless 0 1) >>> 4) &&& 1)
    Dpad := buffer.byteAt (9 - cond wireless 0 1) &&& 0b1111
    Up := decide (buffer.byteAt (9 - cond wireless 0 1) &&& 0b1111 < 2 ∨
      buffer.byteAt (9 - cond wireless 0 1) &&& 0b1111 = 7)
    Down := decide (2 < buffer.byteAt (9 - cond wireless 0 1) &&& 0b1111 ∧
      buffer.byteAt (9 - cond wireless 0 1) &&& 0b1111 < 6)
    Left := decide (4 < buffer.byteAt (9 - cond wireless 0 1) &&& 0b1111 ∧
      buffer.byteAt (9 - cond wireless 0 1) &&& 0b1111 < 8)
    Right := decide (0 < buffer.byteAt (9 - cond wireless 0 1) &&& 0b1111 ∧
      buffer.byteAt (9 - cond wireless 0 1) &&& 0b1111 < 4)
    LeftTriggerButton := decide (0 < buffer.byteAt (10 - cond wireless 0 1) &&& 4)
    RightTriggerButton := decide (0 < buffer.byteAt (10 - cond wireless 0 1) &&& 8)
    LeftBumper := decide (0 < buffer.byteAt (10 - cond wireless 0 1) &&& 1)
    RightBumper := decide (0 < buffer.byteAt (10 - cond wireless 0 1) &&& 2)
    Create := decide (0 < buffer.byteAt (10 - cond wireless 0 1) &&& 16)
    Options := decide (0 < buffer.byteAt (10 - cond wireless 0 1) &&& 32)
    LeftAnalogButton := decide (0 < buffer.byteAt (10 - cond wireless 0 1) &&& 64)
    RightAnalogButton := decide (0 < buffer.byteAt (10 - cond wireless 0 1) &&& 128)
    Playstation := decide (0 < buffer.byteAt (11 - cond wireless 0 1) &&& 1)
    TouchButton := decide (0 < buffer.byteAt (11 - cond wireless 0 1) &&& 2)
    Mute := decide (0 < buffer.byteAt (11 - cond wireless 0 1) &&& 4)
    GyroX := (buffer.wordAt (17 - cond wireless 0 1) : Int)
    GyroY := (buffer.wordAt (19 - cond wireless 0 1) : Int)
    GyroZ := (buffer.wordAt (21 - cond wireless 0 1) : Int)
    AccelX := (buffer.wordAt (23 - cond wireless 0 1) : Int)
    AccelY := (buffer.wordAt (25 - cond wireless 0 1) : Int)
    AccelZ := (buffer.wordAt (27 - cond wireless 0 1) : Int)
    TouchId0 := buffer.byteAt (34 - cond wireless 0 1) &&& 0x7f
    TouchContact0 := decide (buffer.byteAt (34 - cond wireless 0 1) &&& 0x80 = 0)
    TouchX0 := mapAxis (touchXRaw (buffer.wordAt (35 - cond wireless 0 1)) : ℚ) 1920
    TouchY0 := mapAxis (touchYRaw (buffer.wordAt (36 - cond wireless 0 1)) : ℚ) 1080
    TouchId1 := buffer.byteAt (38 - cond wireless 0 1) &&& 0x7f
    TouchContact1 := decide (buffer.byteAt (38 - cond wireless 0 1) &&& 0x80 = 0)
    TouchX1 := mapAxis (touchXRaw (buffer.wordAt (39 - cond wireless 0 1)) : ℚ) 1920
    TouchY1 := mapAxis (touchYRaw (buffer.wordAt (40 - cond wireless 0 1)) : ℚ) 1080
    Status := decide (0 < buffer.byteAt (55 - cond wireless 0 1) &&& 4) }

theorem processOldInputReport_ok (wireless : Bool) (buffer : ByteArray)
    (h : 55 < buffer.data.length) :
    processOldInputReport wireless buffer = .ok (oldView wireless buffer) := by
  cases wireless
  · have e : (cond false (0 : Nat) 1) = 1 := rfl
    simp only [processOldInputReport, oldView, e,
      readUint8_ok buffer (9 - 1) (by omega),
      readUint8_ok buffer (10 - 1) (by omega),
      readUint8_ok buffer (11 - 1) (by omega),
      readUint8_ok buffer (2 - 1) (by omega),
      readUint8_ok buffer (3 - 1) (by omega),
      readUint8_ok buffer (4 - 1) (by omega),
      readUint8_ok buffer (5 - 1) (by omega),
      readUint8_ok buffer (6 - 1) (by omega),
      readUint8_ok buffer (7 - 1) (by omega),
      readUint16LE_ok buffer (17 - 1) (by omega),
      readUint16LE_ok buffer (19 - 1) (by omega),
      readUint16LE_ok buffer (21 - 1) (by omega),
      readUint16LE_ok buffer (23 - 1) (by omega),
      readUint16LE_ok buffer (25 - 1) (by omega),
      readUint16LE_ok buffer (27 - 1) (by omega),
      readUint8_ok buffer (34 - 1) (by omega),
      readUint16LE_ok buffer (35 - 1) (by omega),
      readUint16LE_ok buffer (36 - 1) (by omega),
      readUint8_ok buffer (38 - 1) (by omega),
      readUint16LE_ok buffer (39 - 1) (by omega),
      readUint16LE_ok buffer (40 - 1) (by omega),
      readUint8_ok buffer (55 - 1) (by omega),
      ok_bind]
    rfl
  · have e : (cond true (0 : Nat) 1) = 0 := rfl
    simp only [processOldInputReport, oldView, e,
      readUint8_ok buffer (9 - 0) (by omega),
      readUint8_ok buffer (10 - 0) (by omega),
      readUint8_ok buffer (11 - 0) (by omega),
      readUint8_ok buffer (2 - 0) (by omega),
      readUint8_ok buffer (3 - 0) (by omega),
      readUint8_ok buffer (4 - 0) (by omega),
      readUint8_ok buffer (5 - 0) (by omega),
      readUint8_ok buffer (6 - 0) (by omega),
      readUint8_ok buffer (7 - 0) (by omega),
      readUint16LE_ok buffer (17 - 0) (by omega),
      readUint16LE_ok buffer (19 - 0) (by omega),
      readUint16LE_ok buffer (21 - 0) (by omega),
      readUint16LE_ok buffer (23 - 0) (by omega),
      readUint16LE_ok buffer (25 - 0) (by omega),
      readUint16LE_ok buffer (27 - 0) (by omega),
      readUint8_ok buffer (34 - 0) (by omega),
      readUint16LE_ok buffer (35 - 0) (by omega),
      readUint16LE_ok buffer (36 - 0) (by omega),
      readUint8_ok buffer (38 - 0) (by omega),
      readUint16LE_ok buffer (39 - 0) (by omega),
      readUint16LE_ok buffer (40 - 0) (by omega),
      readUint8_ok buffer (55 - 0) (by omega),
      ok_bind]
    rfl

/-! ### Spec-side definitions and arithmetic helper lemmas -/

/-- Two's-complement interpretation of a 16-bit value, following the spec's
words: the signed reading of the low 16 bits. -/
def twosComplement16 (n : Nat) : Int :=
  if n % 65536 < 32768 then ((n % 65536 : Nat) : Int)
  else ((n % 65536 : Nat) : Int) - 65536

/-- The d-pad boolean decomposition required by the spec, as a predicate on a
decoded snapshot: each direction boolean matches the documented inequality
range of the raw d-pad value. -/
def dpadSpec (st : DualsenseHIDState) : Prop :=
  (st.Up = true ↔ (st.Dpad < 2 ∨ st.Dpad = 7)) ∧
  (st.Down = true ↔ (2 < st.Dpad ∧ st.Dpad < 6)) ∧
  (st.Left = true ↔ (4 < st.Dpad ∧ st.Dpad < 8)) ∧
  (st.Right = true ↔ (0 < st.Dpad ∧ st.Dpad < 4))

theorem lor_low_bridge (b a : Nat) (h : a < 256) : (b <<< 8) ||| a = 256 * b + a := by
  apply Nat.eq_of_testBit_eq
  intro k
  rw [Nat.testBit_lor, Nat.testBit_shiftLeft]
  rw [show (256 : Nat) * b = 2 ^ 8 * b by norm_num,
    Nat.testBit_mul_pow_two_add b (show a < 2 ^ 8 by omega) k]
  by_cases hk : k < 8
  · simp [hk, Nat.not_le.mpr hk]
  · have h8 : 8 ≤ k := Nat.le_of_not_lt hk
    have hpow : (2 : Nat) ^ 8 ≤ 2 ^ k := Nat.pow_le_pow_right (by norm_num) h8
    have ha : a.testBit k = false := Nat.testBit_lt_two_pow (by omega)
    simp [hk, h8, ha]

theorem mapGyroAccel_eq (v0 v1 : Nat) (h0 : v0 < 256) (h1 : v1 < 256) :
    mapGyroAccel v0 v1 = twosComplement16 (v0 + 256 * v1) := by
  unfold mapGyroAccel twosComplement16
  rw [lor_low_bridge v1 v0 h0]
  rw [Nat.mod_eq_of_lt (show v0 + 256 * v1 < 65536 by omega)]
  split_ifs <;> push_cast <;> omega

theorem mapGyroAccel_range (v0 v1 : Nat) (h0 : v0 < 256) (h1 : v1 < 256) :
    -32768 ≤ mapGyroAccel v0 v1 ∧ mapGyroAccel v0 v1 ≤ 32767 := by
  rw [mapGyroAccel_eq v0 v1 h0 h1]
  unfold twosComplement16
  have := Nat.mod_lt (v0 + 256 * v1) (show 0 < 65536 by norm_num)
  split_ifs <;> constructor <;> push_cast <;> omega

theorem touchXRaw_eq (w : Nat) :
    touchXRaw w = (if w % 4096 < 2048 then ((w % 4096 : Nat) : Int)
      else ((w % 4096 : Nat) : Int) - 4096) := by
  unfold touchXRaw jsShl jsSar asInt32
  rw [show (20 : Nat) % 32 = 20 from rfl, Nat.shiftLeft_eq,
    show (4294967296 : Nat) = 4096 * 2 ^ 20 by norm_num,
    Nat.mul_mod_mul_right (2 ^ 20) w 4096]
  have hmod : w % 4096 < 4096 := Nat.mod_lt w (by norm_num)
  by_cases hw : w % 4096 < 2048
  · rw [if_pos (by push_cast; nlinarith), if_pos hw]
    push_cast
    exact Int.mul_fdiv_cancel _ (by norm_num)
  · rw [if_neg (by push_cast; nlinarith [Nat.le_of_not_lt hw]), if_neg hw]
    push_cast
    rw [show ((w : Int) % 4096 * 1048576 - 4294967296) =
      ((w : Int) % 4096 - 4096) * 1048576 by ring]
    rw [Int.mul_fdiv_cancel _ (by norm_num)]

theorem touchXRaw_bounds (w : Nat) : -2048 ≤ touchXRaw w ∧ touchXRaw w ≤ 2047 := by
  rw [touchXRaw_eq]
  have hmod : w % 4096 < 4096 := Nat.mod_lt w (by norm_num)
  split_ifs <;> constructor <;> push_cast <;> omega

theorem touchYRaw_eq (w : Nat) (h : w < 2147483648) : touchYRaw w = ((w / 16 : Nat) : Int) := by
  unfold touchYRaw jsSar asInt32
  rw [Nat.mod_eq_of_lt (by omega), if_pos h,
    show (2 : Int) ^ (4 % 32) = 16 by norm_num]
  cases w with
  | zero => rfl
  | succ m => rfl

theorem touchYRaw_bounds (w : Nat) (h : w < 65536) :
    0 ≤ touchYRaw w ∧ touchYRaw w ≤ 4095 := by
  rw [touchYRaw_eq w (by omega)]
  have : w / 16 ≤ 4095 := by omega
  constructor <;> push_cast <;> omega

theorem pos_of_and_pos (x m : Nat) (h : 0 < x &&& m) : 0 < x := by
  rcases Nat.eq_zero_or_pos x with rfl | hx
  · simp [Nat.zero_and] at h
  · exact hx

theorem mapTrigger_pos (n : Nat) (h : 0 < n) : 0 < mapTrigger (n : ℚ) := by
  unfold mapTrigger
  have h1 : (1 : ℚ) ≤ (n : ℚ) := by exact_mod_cast h
  have hmin : (1 : ℚ) ≤ Min.min 255 (n : ℚ) := le_min (by norm_num) h1
  have hmax : (1 : ℚ) ≤ Max.max 0 (Min.min 255 (n : ℚ)) :=
    le_trans hmin (le_max_right _ _)
  nlinarith

/-! ### Concrete buffers and states used as witnesses and counterexamples -/

/-- A 10-byte all-zero buffer: the expected size of a wireless-reduced
(Bluetooth 0x01) report including the report ID byte. -/
def zeros10 : ByteArray := ⟨List.replicate 10 0⟩

/-- A 64-byte all-zero buffer: the expected size of a wired report including
the report ID byte. -/
def zeros64 : ByteArray := ⟨List.replicate 64 0⟩

/-- A 78-byte all-zero buffer: the expected size of a wireless-full
(Bluetooth 0x31) report including the report ID byte. -/
def zeros78 : ByteArray := ⟨List.replicate 78 0⟩

/-- A 64-byte all-0xFF buffer. -/
def ff64 : ByteArray := ⟨List.replicate 64 255⟩

/-- A 64-byte buffer whose packed touch-coordinate pair at offsets 34-35
holds the 12-bit value 2047. -/
def touch2047Buf : ByteArray :=
  ⟨List.replicate 34 0 ++ [255, 7] ++ List.replicate 28 0⟩

/-- A provider state in which the sticky unknown-device flag is set. -/
def unknownState : ProviderState :=
  { device := none
    wireless := none
    buffer := none
    unknownDevice := true
    oldFirmware := false }

/-- Once the unknown-device flag is set, further autodetect calls never fire
the error callback again (no matter the buffer), and the flag stays set. -/
theorem autodetect_no_more_errors (bufs : List ByteArray) :
    ∀ p : ProviderState × Nat, p.1.unknownDevice = true →
      (bufs.foldl autodetectStep p).2 = p.2 ∧
      (bufs.foldl autodetectStep p).1.unknownDevice = true := by
  induction bufs with
  | nil => exact fun p hp => ⟨rfl, hp⟩
  | cons b bs ih =>
    intro p hp
    have hstep : (autodetectStep p b).1.unknownDevice = true ∧
        (autodetectStep p b).2 = p.2 := by
      simp only [autodetectStep, autodetectConnectionType]
      split_ifs <;> simp_all
    rw [List.foldl_cons]
    have hrec := ih (autodetectStep p b) hstep.1
    exact ⟨by rw [hrec.1, hstep.2], hrec.2⟩

/-- Claim C1: per the spec, a wireless-reduced (10-byte) buffer should decode
successfully with neutral sentinels for motion and touch; the code instead
reads motion and touch offsets unconditionally, so on every 10-byte buffer
processBluetoothInputReport01 fails with an OutOfRange error at offset 16,
the first motion-byte read. -/
theorem bt_report01_fails_on_ten_byte_buffer (buffer : ByteArray)
    (h : buffer.length = DUAL_SENSE_BT_INPUT_REPORT_0x01_SIZE + 1) :
    processBluetoothInputReport01 buffer = .error (.outOfRange 16) := by
  have hd : buffer.data.length = 10 := by
    simpa [ByteArray.length, DUAL_SENSE_BT_INPUT_REPORT_0x01_SIZE] using h
  simp only [processBluetoothInputReport01,
    readUint8_ok buffer 7 (by omega),
    readUint8_ok buffer 8 (by omega),
    readUint8_ok buffer 9 (by omega),
    readUint8_ok buffer 1 (by omega),
    readUint8_ok buffer 2 (by omega),
    readUint8_ok buffer 3 (by omega),
    readUint8_ok buffer 4 (by omega),
    readUint8_err buffer 16 (by omega),
    ok_bind, error_bind]

/-- Witness for claim C1 at a concrete 10-byte buffer. -/
theorem bt_report01_fails_on_ten_byte_buffer_witness :
    processBluetoothInputReport01 zeros10 = .error (.outOfRange 16) :=
  bt_report01_fails_on_ten_byte_buffer zeros10 (by decide)

/-- Counterexample to claim C2: a buffer whose length is exactly the
wireless-reduced expected length (10 bytes) is NOT matched by
autodetectConnectionType; instead the unknown-device flag is set, the
wireless state is cleared and the error callback fires. -/
theorem autodetect_ten_byte_buffer_unrecognized :
    (autodetectConnectionType initialState zeros10).1.unknownDevice = true ∧
    (autodetectConnectionType initialState zeros10).1.wireless = none ∧
    (autodetectConnectionType initialState zeros10).2 = true := by
  decide

/-- Claim C2 (amended): autodetectConnectionType matches exactly the lengths
64 (wired) and 78 (wireless-full); every other length, including the 10-byte
wireless-reduced size, falls to the default branch, which clears the wireless
state, sets the unknown-device flag, and reports the error precisely when the
flag was not already set. -/
theorem autodetect_recognizes_only_64_and_78 (s : ProviderState) (buffer : ByteArray) :
    (autodetectConnectionType s buffer).1.wireless =
      (if buffer.length = 64 then some false
       else if buffer.length = 78 then some true else none) ∧
    (autodetectConnectionType s buffer).1.unknownDevice =
      (if buffer.length = 64 ∨ buffer.length = 78 then s.unknownDevice else true) ∧
    ((autodetectConnectionType s buffer).2 = true ↔
      (buffer.length ≠ 64 ∧ buffer.length ≠ 78 ∧ s.unknownDevice = false)) := by
  by_cases h1 : buffer.length = 64 <;> by_cases h2 : buffer.length = 78
  · exfalso; omega
  · simp [autodetectConnectionType, DUAL_SENSE_USB_INPUT_REPORT_0x01_SIZE,
      DUAL_SENSE_BT_INPUT_REPORT_0x31_SIZE, h1, h2]
  · simp [autodetectConnectionType, DUAL_SENSE_USB_INPUT_REPORT_0x01_SIZE,
      DUAL_SENSE_BT_INPUT_REPORT_0x31_SIZE, h1, h2]
  · simp [autodetectConnectionType, DUAL_SENSE_USB_INPUT_REPORT_0x01_SIZE,
      DUAL_SENSE_BT_INPUT_REPORT_0x31_SIZE, h1, h2, Bool.not_eq_true']

/-- Witness for the amended claim C2 at a concrete recognized buffer. -/
theorem autodetect_recognizes_only_64_and_78_witness :
    (autodetectConnectionType initialState zeros64).1.wireless = some false := by
  have h := (autodetect_recognizes_only_64_and_78 initialState zeros64).1
  simpa [zeros64, ByteArray.length] using h

/-- Counterexample to claim C3: starting from a state with the unknown-device
flag set, a recognized 64-byte buffer does NOT clear the flag, and a
subsequent unrecognized 10-byte buffer therefore does not report the error
again. -/
theorem recognized_length_leaves_flag_set :
    (autodetectConnectionType unknownState zeros64).1.unknownDevice = true ∧
    (autodetectConnectionType
      (autodetectConnectionType unknownState zeros64).1 zeros10).2 = false := by
  decide

/-- Claim C3 (amended): processing a recognized-length buffer sets the
wireless state but leaves the sticky unknown-device flag unchanged; only
reset() clears the flag, after which an unrecognized-length buffer reports
the error again. -/
theorem unknown_flag_cleared_only_by_reset (s : ProviderState)
    (b64 b78 b10 : ByteArray) (h64 : b64.length = 64) (h78 : b78.length = 78)
    (h10 : b10.length = 10) :
    (autodetectConnectionType s b64).1.unknownDevice = s.unknownDevice ∧
    (autodetectConnectionType s b78).1.unknownDevice = s.unknownDevice ∧
    (reset s).unknownDevice = false ∧
    (autodetectConnectionType (reset s) b10).2 = true := by
  refine ⟨?_, ?_, rfl, ?_⟩
  · unfold autodetectConnectionType
    rw [if_pos (by simp only [DUAL_SENSE_USB_INPUT_REPORT_0x01_SIZE]; omega)]
  · unfold autodetectConnectionType
    rw [if_neg (by simp only [DUAL_SENSE_USB_INPUT_REPORT_0x01_SIZE]; omega),
      if_pos (by simp only [DUAL_SENSE_BT_INPUT_REPORT_0x31_SIZE]; omega)]
  · unfold autodetectConnectionType
    rw [if_neg (by simp only [DUAL_SENSE_USB_INPUT_REPORT_0x01_SIZE]; omega),
      if_neg (by simp only [DUAL_SENSE_BT_INPUT_REPORT_0x31_SIZE]; omega)]
    rfl

/-- Witness for the amended claim C3 at concrete states and buffers. -/
theorem unknown_flag_cleared_only_by_reset_witness :
    (reset unknownState).unknownDevice = false ∧
    (autodetectConnectionType (reset unknownState) zeros10).2 = true := by
  have h := unknown_flag_cleared_only_by_reset unknownState zeros64 zeros78 zeros10
    (by decide) (by decide) (by decide)
  exact ⟨h.2.2.1, h.2.2.2⟩

/-- Claim C4: from a state with the unknown-device flag clear, one buffer of
an unrecognized length followed by any number of further buffers of the same
length invokes the error callback exactly once in total, and the flag is set
after the first such buffer. -/
theorem format_unrecognized_reported_once (s : ProviderState) (first : ByteArray)
    (rest : List ByteArray) (hflag : s.unknownDevice = false)
    (h64 : first.length ≠ 64) (h78 : first.length ≠ 78)
    (_hsame : ∀ b ∈ rest, b.length = first.length) :
    (autodetectConnectionType s first).2 = true ∧
    (autodetectConnectionType s first).1.unknownDevice = true ∧
    (runAutodetect s (first :: rest)).2 = 1 := by
  have hfirst : autodetectConnectionType s first =
      ({ s with wireless := none, unknownDevice := true }, !s.unknownDevice) := by
    unfold autodetectConnectionType
    rw [if_neg (by simp only [DUAL_SENSE_USB_INPUT_REPORT_0x01_SIZE]; omega),
      if_neg (by simp only [DUAL_SENSE_BT_INPUT_REPORT_0x31_SIZE]; omega)]
  refine ⟨by rw [hfirst]; simp [hflag], by rw [hfirst], ?_⟩
  unfold runAutodetect
  rw [List.foldl_cons]
  have hstep : autodetectStep (s, 0) first =
      ({ s with wireless := none, unknownDevice := true }, 1) := by
    simp [autodetectStep, hfirst, hflag]
  rw [hstep]
  exact (autodetect_no_more_errors rest _ rfl).1

/-- Witness for claim C4: a 10-byte buffer followed by three more of the same
length fires the error exactly once. -/
theorem format_unrecognized_reported_once_witness :
    (autodetectConnectionType initialState zeros10).2 = true ∧
    (autodetectConnectionType initialState zeros10).1.unknownDevice = true ∧
    (runAutodetect initialState (zeros10 :: [zeros10, zeros10, zeros10])).2 = 1 :=
  format_unrecognized_reported_once initialState zeros10 [zeros10, zeros10, zeros10]
    rfl (by decide) (by decide) (by intro b hb; simp at hb; rw [hb])

/-- Counterexample to claim C5: the reconstructed touch coordinates are not
bounded by the touchpad resolution. On a 64-byte all-0xFF buffer the packed
field at offset 34 reads 65535, whose 12-bit sign-extended X value is -1
(negative, outside [0, 1920]) and whose Y value is 4095 (above 1080); on a
buffer whose packed field holds 2047 the X value is 2047, above 1920. -/
theorem touch_raw_exceeds_resolution :
    (∃ st, processUsbInputReport01 ff64 = .ok st ∧
      st.TouchX0 = mapAxis (touchXRaw (ff64.wordAt 34) : ℚ) 1920 ∧
      st.TouchY0 = mapAxis (touchYRaw (ff64.wordAt 35) : ℚ) 1080) ∧
    ff64.wordAt 34 = 65535 ∧ touchXRaw 65535 = -1 ∧
    touchXRaw (ff64.wordAt 34) < 0 ∧
    ff64.wordAt 35 = 65535 ∧ touchYRaw 65535 = 4095 ∧
    1080 < touchYRaw (ff64.wordAt 35) ∧
    (∃ st, processUsbInputReport01 touch2047Buf = .ok st ∧
      st.TouchX0 = mapAxis (touchXRaw (touch2047Buf.wordAt 34) : ℚ) 1920) ∧
    touch2047Buf.wordAt 34 = 2047 ∧ touchXRaw 2047 = 2047 ∧
    1920 < touchXRaw (touch2047Buf.wordAt 34) := by
  refine ⟨⟨usbView ff64, processUsbInputReport01_ok ff64 (by decide), rfl, rfl⟩,
    by decide, by decide, by decide, by decide, by decide, by decide,
    ⟨usbView touch2047Buf, processUsbInputReport01_ok touch2047Buf (by decide), rfl⟩,
    by decide, by decide, by decide⟩

/-- Claim C5 (amended): the touch coordinate values reconstructed from the
12-bit packed fields lie in the signed-12-bit range [-2048, 2047] for X and
the unsigned-12-bit range [0, 4095] for Y; they are not bounded by the
1920 by 1080 touchpad resolution (the later mapAxis call clamps them). -/
theorem touch_raw_in_twelve_bit_range (buffer : ByteArray)
    (h : 54 < buffer.data.length) :
    ∃ st, processUsbInputReport01 buffer = .ok st ∧
      st.TouchX0 = mapAxis (touchXRaw (buffer.wordAt 34) : ℚ) 1920 ∧
      st.TouchY0 = mapAxis (touchYRaw (buffer.wordAt 35) : ℚ) 1080 ∧
      st.TouchX1 = mapAxis (touchXRaw (buffer.wordAt 38) : ℚ) 1920 ∧
      st.TouchY1 = mapAxis (touchYRaw (buffer.wordAt 39) : ℚ) 1080 ∧
      -2048 ≤ touchXRaw (buffer.wordAt 34) ∧ touchXRaw (buffer.wordAt 34) ≤ 2047 ∧
      0 ≤ touchYRaw (buffer.wordAt 35) ∧ touchYRaw (buffer.wordAt 35) ≤ 4095 ∧
      -2048 ≤ touchXRaw (buffer.wordAt 38) ∧ touchXRaw (buffer.wordAt 38) ≤ 2047 ∧
      0 ≤ touchYRaw (buffer.wordAt 39) ∧ touchYRaw (buffer.wordAt 39) ≤ 4095 := by
  refine ⟨usbView buffer, processUsbInputReport01_ok buffer h, rfl, rfl, rfl, rfl,
    (touchXRaw_bounds _).1, (touchXRaw_bounds _).2,
    (touchYRaw_bounds _ (wordAt_lt buffer 35)).1,
    (touchYRaw_bounds _ (wordAt_lt buffer 35)).2,
    (touchXRaw_bounds _).1, (touchXRaw_bounds _).2,
    (touchYRaw_bounds _ (wordAt_lt buffer 39)).1,
    (touchYRaw_bounds _ (wordAt_lt buffer 39)).2⟩

/-- Witness for the amended claim C5 at a concrete buffer. -/
theorem touch_raw_in_twelve_bit_range_witness :
    ∃ st, processUsbInputReport01 zeros64 = .ok st ∧
      -2048 ≤ touchXRaw (zeros64.wordAt 34) ∧ touchXRaw (zeros64.wordAt 34) ≤ 2047 := by
  obtain ⟨st, h1, _, _, _, _, hx1, hx2, _⟩ :=
    touch_raw_in_twelve_bit_range zeros64 (by decide)
  exact ⟨st, h1, hx1, hx2⟩

/-- Claim C6: mapGyroAccel returns exactly the two's-complement
interpretation of (high shl 8) or low for byte inputs; in particular it maps
(0,0) to 0, (0xFF,0x7F) to 32767 and (0x00,0x80) to -32768, and the result
always lies in [-32768, 32767]. -/
theorem mapGyroAccel_twos_complement :
    (∀ v0 v1 : Nat, v0 < 256 → v1 < 256 →
      mapGyroAccel v0 v1 = twosComplement16 ((v1 <<< 8) ||| v0) ∧
      -32768 ≤ mapGyroAccel v0 v1 ∧ mapGyroAccel v0 v1 ≤ 32767) ∧
    mapGyroAccel 0 0 = 0 ∧ mapGyroAccel 0xFF 0x7F = 32767 ∧
    mapGyroAccel 0x00 0x80 = -32768 := by
  refine ⟨fun v0 v1 h0 h1 => ?_, by decide, by decide, by decide⟩
  refine ⟨?_, (mapGyroAccel_range v0 v1 h0 h1).1, (mapGyroAccel_range v0 v1 h0 h1).2⟩
  rw [mapGyroAccel_eq v0 v1 h0 h1, lor_low_bridge v1 v0 h0, Nat.add_comm v0 (256 * v1)]

/-- Witness for claim C6 at concrete bytes. -/
theorem mapGyroAccel_twos_complement_witness :
    mapGyroAccel 3 4 = twosComplement16 ((4 <<< 8) ||| 3) ∧
    -32768 ≤ mapGyroAccel 3 4 ∧ mapGyroAccel 3 4 ≤ 32767 :=
  mapGyroAccel_twos_complement.1 3 4 (by norm_num) (by norm_num)

/-- Claim C7: mapAxis equals (2/max) * clamp(v,0,max) - 1 for every input;
on [0,255] with the default max the result lies in [-1,1]; mapAxis 0 = -1,
mapAxis 255 = 1, mapAxis 127 and mapAxis 128 are within 1/127 of 0, and
out-of-range inputs clamp before mapping. -/
theorem mapAxis_spec_properties :
    (∀ v : ℚ, 0 ≤ v → v ≤ 255 → -1 ≤ mapAxis v ∧ mapAxis v ≤ 1) ∧
    mapAxis 0 = -1 ∧ mapAxis 255 = 1 ∧
    |mapAxis 127| ≤ 1 / 127 ∧ |mapAxis 128| ≤ 1 / 127 ∧
    mapAxis (-5) = mapAxis 0 ∧ mapAxis 9999 = mapAxis 255 ∧
    (∀ v mx : ℚ, mapAxis v mx = (2 / mx) * (Max.max 0 (Min.min mx v)) - 1) := by
  refine ⟨fun v h0 h255 => ?_, ?_, ?_, ?_, ?_, ?_, ?_, fun v mx => rfl⟩
  · unfold mapAxis
    rw [min_eq_right h255, max_eq_right h0]
    constructor <;> nlinarith
  · norm_num [mapAxis, min_def, max_def]
  · norm_num [mapAxis, min_def, max_def]
  · rw [abs_le]; constructor <;> norm_num [mapAxis, min_def, max_def]
  · rw [abs_le]; constructor <;> norm_num [mapAxis, min_def, max_def]
  · norm_num [mapAxis, min_def, max_def]
  · norm_num [mapAxis, min_def, max_def]

/-- Witness for claim C7 at a concrete in-range input. -/
theorem mapAxis_spec_properties_witness : -1 ≤ mapAxis 3 ∧ mapAxis 3 ≤ 1 :=
  mapAxis_spec_properties.1 3 (by norm_num) (by norm_num)

/-- Claim C8: in every decode routine the four d-pad direction booleans
satisfy exactly the documented inequalities over the raw d-pad nibble:
Up iff value < 2 or value = 7, Down iff 2 < value < 6, Left iff
4 < value < 8, Right iff 0 < value < 4. -/
theorem dpad_boolean_decomposition :
    (∀ buffer : ByteArray, 54 < buffer.data.length →
      ∃ st, processUsbInputReport01 buffer = .ok st ∧ dpadSpec st) ∧
    (∀ buffer : ByteArray, 54 < buffer.data.length →
      ∃ st, processBluetoothInputReport01 buffer = .ok st ∧ dpadSpec st) ∧
    (∀ (wireless : Bool) (buffer : ByteArray), 55 < buffer.data.length →
      ∃ st, processOldInputReport wireless buffer = .ok st ∧ dpadSpec st) := by
  refine ⟨fun buffer h => ⟨usbView buffer, processUsbInputReport01_ok buffer h, ?_⟩,
    fun buffer h => ⟨btView buffer, processBluetoothInputReport01_ok buffer h, ?_⟩,
    fun wireless buffer h =>
      ⟨oldView wireless buffer, processOldInputReport_ok wireless buffer h, ?_⟩⟩
  · simp [dpadSpec, usbView]
  · simp [dpadSpec, btView]
  · simp [dpadSpec, oldView]

/-- Witness for claim C8 at a concrete buffer. -/
theorem dpad_boolean_decomposition_witness :
    ∃ st, processUsbInputReport01 zeros64 = .ok st ∧ dpadSpec st :=
  dpad_boolean_decomposition.1 zeros64 (by decide)

/-- Claim C9: the legacy-firmware decode reads the six motion fields as raw
little-endian 16-bit unsigned values (always in [0, 65535], no sign
adjustment), whereas the current-firmware USB and wireless routines decode
the same fields through mapGyroAccel, i.e. as two's-complement signed
values. -/
theorem legacy_motion_unsigned_current_signed :
    (∀ (wireless : Bool) (buffer : ByteArray), 55 < buffer.data.length →
      ∃ st, processOldInputReport wireless buffer = .ok st ∧
        st.GyroX = (buffer.wordAt (17 - cond wireless 0 1) : Int) ∧
        st.GyroY = (buffer.wordAt (19 - cond wireless 0 1) : Int) ∧
        st.GyroZ = (buffer.wordAt (21 - cond wireless 0 1) : Int) ∧
        st.AccelX = (buffer.wordAt (23 - cond wireless 0 1) : Int) ∧
        st.AccelY = (buffer.wordAt (25 - cond wireless 0 1) : Int) ∧
        st.AccelZ = (buffer.wordAt (27 - cond wireless 0 1) : Int) ∧
        (0 ≤ st.GyroX ∧ st.GyroX ≤ 65535) ∧ (0 ≤ st.GyroY ∧ st.GyroY ≤ 65535) ∧
        (0 ≤ st.GyroZ ∧ st.GyroZ ≤ 65535) ∧ (0 ≤ st.AccelX ∧ st.AccelX ≤ 65535) ∧
        (0 ≤ st.AccelY ∧ st.AccelY ≤ 65535) ∧ (0 ≤ st.AccelZ ∧ st.AccelZ ≤ 65535)) ∧
    (∀ buffer : ByteArray, 54 < buffer.data.length →
      ∃ st, processUsbInputReport01 buffer = .ok st ∧
        st.GyroX = mapGyroAccel (buffer.byteAt 16) (buffer.byteAt 17) ∧
        st.GyroX = twosComplement16 (buffer.wordAt 16) ∧
        st.GyroY = twosComplement16 (buffer.wordAt 18) ∧
        st.GyroZ = twosComplement16 (buffer.wordAt 20) ∧
        st.AccelX = twosComplement16 (buffer.wordAt 22) ∧
        st.AccelY = twosComplement16 (buffer.wordAt 24) ∧
        st.AccelZ = twosComplement16 (buffer.wordAt 26)) ∧
    (∀ buffer : ByteArray, 54 < buffer.data.length →
      ∃ st, processBluetoothInputReport01 buffer = .ok st ∧
        st.GyroX = twosComplement16 (buffer.wordAt 16) ∧
        st.GyroY = twosComplement16 (buffer.wordAt 18) ∧
        st.GyroZ = twosComplement16 (buffer.wordAt 20) ∧
        st.AccelX = twosComplement16 (buffer.wordAt 22) ∧
        st.AccelY = twosComplement16 (buffer.wordAt 24) ∧
        st.AccelZ = twosComplement16 (buffer.wordAt 26)) := by
  refine ⟨fun wireless buffer h => ?_, fun buffer h => ?_, fun buffer h => ?_⟩
  · refine ⟨oldView wireless buffer, processOldInputReport_ok wireless buffer h,
      rfl, rfl, rfl, rfl, rfl, rfl, ?_, ?_, ?_, ?_, ?_, ?_⟩ <;> simp only [oldView]
    · have := wordAt_lt buffer (17 - cond wireless 0 1); omega
    · have := wordAt_lt buffer (19 - cond wireless 0 1); omega
    · have := wordAt_lt buffer (21 - cond wireless 0 1); omega
    · have := wordAt_lt buffer (23 - cond wireless 0 1); omega
    · have := wordAt_lt buffer (25 - cond wireless 0 1); omega
    · have := wordAt_lt buffer (27 - cond wireless 0 1); omega
  · refine ⟨usbView buffer, processUsbInputReport01_ok buffer h,
      rfl, ?_, ?_, ?_, ?_, ?_, ?_⟩ <;> simp only [usbView] <;>
      rw [mapGyroAccel_eq _ _ (byteAt_lt _ _) (byteAt_lt _ _)] <;> rfl
  · refine ⟨btView buffer, processBluetoothInputReport01_ok buffer h,
      ?_, ?_, ?_, ?_, ?_, ?_⟩ <;> simp only [btView] <;>
      rw [mapGyroAccel_eq _ _ (byteAt_lt _ _) (byteAt_lt _ _)] <;> rfl

/-- Witness for claim C9 at a concrete buffer. -/
theorem legacy_motion_unsigned_current_signed_witness :
    ∃ st, processUsbInputReport01 zeros64 = .ok st ∧
      st.GyroX = twosComplement16 (zeros64.wordAt 16) := by
  obtain ⟨st, h1, _, h3, _⟩ :=
    legacy_motion_unsigned_current_signed.2.1 zeros64 (by decide)
  exact ⟨st, h1, h3⟩

/-- Claim C10: in the wireless-reduced decode routine the left trigger is
computed from the same byte (offset 8) as the misc-button mask and the right
trigger from the same byte (offset 9) as the last-button mask, so any pressed
misc button forces a positive left trigger and any pressed last button forces
a positive right trigger. -/
theorem bt_triggers_share_button_bytes (buffer : ByteArray)
    (h : 54 < buffer.data.length) :
    ∃ st, processBluetoothInputReport01 buffer = .ok st ∧
      st.LeftTrigger = mapTrigger (buffer.byteAt 8) ∧
      st.RightTrigger = mapTrigger (buffer.byteAt 9) ∧
      ((st.LeftBumper = true ∨ st.RightBumper = true ∨ st.LeftTriggerButton = true ∨
        st.RightTriggerButton = true ∨ st.Create = true ∨ st.Options = true ∨
        st.LeftAnalogButton = true ∨ st.RightAnalogButton = true) →
        0 < st.LeftTrigger) ∧
      ((st.Playstation = true ∨ st.TouchButton = true ∨ st.Mute = true) →
        0 < st.RightTrigger) := by
  refine ⟨btView buffer, processBluetoothInputReport01_ok buffer h, rfl, rfl, ?_, ?_⟩
  · intro hdisj
    simp only [btView, decide_eq_true_eq] at hdisj
    have hb : 0 < buffer.byteAt 8 := by
      rcases hdisj with h' | h' | h' | h' | h' | h' | h' | h' <;>
        exact pos_of_and_pos _ _ h'
    simpa only [btView] using mapTrigger_pos _ hb
  · intro hdisj
    simp only [btView, decide_eq_true_eq] at hdisj
    have hb : 0 < buffer.byteAt 9 := by
      rcases hdisj with h' | h' | h' <;> exact pos_of_and_pos _ _ h'
    simpa only [btView] using mapTrigger_pos _ hb

/-- Witness for claim C10 at a concrete buffer. -/
theorem bt_triggers_share_button_bytes_witness :
    ∃ st, processBluetoothInputReport01 zeros78 = .ok st ∧
      st.LeftTrigger = mapTrigger (zeros78.byteAt 8) := by
  obtain ⟨st, h1, h2, _⟩ := bt_triggers_share_button_bytes zeros78 (by decide)
  exact ⟨st, h1, h2⟩

end Dualsense
